import Mathlib

/-!
# Verification of the ROI visualizer financial projection engine

Shallow embedding of the four projection functions (`computeSecurityValues`,
`computeRentalValues`, `computePreciousMetalValues`, `computeFixedIncomeValues`)
and the four per-asset-class validators of the repository, over `ℚ`.

Modelling conventions:
* JavaScript `number` values are modelled as `ℚ`; all arithmetic in the source
  (`+ - * /`, `Math.min`, `Math.max`, `Math.pow` with year-count exponents,
  `Math.floor`, `%`) is exact rational arithmetic on the inputs that appear.
  Lean's division is total (`x / 0 = 0`), while JavaScript produces
  `NaN`/`Infinity` on a zero denominator; zero denominators are therefore
  tracked explicitly through dedicated divisor lists (see `securityDivisors`
  etc.), since `ℚ` has no `NaN`.
* Year-count values used as exponents of `Math.pow` or operands of integer
  division/remainder are modelled as `ℕ` where JavaScript semantics for
  non-integer values would leave rational arithmetic (`FixedIncomeParams.maturityYears`);
  `mortgageDuration` stays `ℚ` (only its floor enters an exponent, see
  `totalMonths`).
* The repository holds two coexisting snapshots of the rental parameter
  schema (dollar-valued `monthlyRentalIncome`/`insuranceCost` read by the
  validator, and percent-valued `monthlyRentalPercent`/`annualInsuranceCostPercent`
  read by the projection).  `RentalPropertyParams` below takes the union of
  the two field sets so that both the validator and the projection can be
  embedded against a single record type, each reading exactly the fields its
  source reads.
-/

namespace ROI

/-- `Number.isInteger` on a rational: true iff the value is a mathematical
integer (denominator 1). -/
def jsIsInteger (q : ℚ) : Prop := q.den = 1

instance : DecidablePred jsIsInteger :=
  fun q => decidable_of_iff (q.den = 1) Iff.rfl

/-! ## Parameter records (src/models/types.ts, both snapshots) -/

/-- `SecurityParams` from types.ts. -/
structure SecurityParams where
  name : String
  initialInvestment : ℚ
  annualReturn : ℚ
  timeHorizon : ℚ
  expenseRatio : ℚ
  oneTimeFee : ℚ
  dividendYield : ℚ
  reinvestDividends : Bool
deriving DecidableEq

/-- `RentalPropertyParams`: union of the two coexisting schema snapshots
(see the module docstring).  `monthlyRentalIncome` and `insuranceCost` are
the dollar-valued variant fields (read by `validateRentalParams`);
`monthlyRentalPercent` and `annualInsuranceCostPercent` are the
value-relative variant fields (read by `computeRentalValues`). -/
structure RentalPropertyParams where
  name : String
  purchasePrice : ℚ
  downPayment : ℚ
  mortgageRate : ℚ
  mortgageDuration : ℚ
  monthlyRentalIncome : ℚ
  monthlyRentalPercent : ℚ
  annualAppreciation : ℚ
  timeHorizon : ℚ
  maintenanceCostPercent : ℚ
  insuranceCost : ℚ
  annualInsuranceCostPercent : ℚ
  propertyTaxRate : ℚ
  vacancyRate : ℚ
  sellingCostPercent : ℚ
deriving DecidableEq

/-- `PreciousMetalParams` from types.ts. -/
structure PreciousMetalParams where
  name : String
  initialInvestment : ℚ
  annualPriceIncrease : ℚ
  timeHorizon : ℚ
  transactionFeePercent : ℚ
deriving DecidableEq

/-- The `compoundingMethod` union type `simple | annual`. -/
inductive CompoundingMethod where
  | simple
  | annual
deriving DecidableEq

/-- `FixedIncomeParams` from types.ts.  `maturityYears` is modelled as `ℕ`:
every use in the source is year-count arithmetic (`Math.min` against a year
index, `Math.floor(year / maturityYears)`, `year % maturityYears`, a
`Math.pow` exponent) and the validator requires a positive integer; for
non-integer maturities JavaScript would compute real-valued powers that
leave the rational embedding. -/
structure FixedIncomeParams where
  name : String
  principal : ℚ
  annualYield : ℚ
  maturityYears : ℕ
  compoundingMethod : CompoundingMethod
  reinvestAtMaturity : Bool
  timeHorizon : ℚ
deriving DecidableEq

/-! ## Security projection (src/models/security.ts) -/

/-- `startingValue = initialInvestment - oneTimeFee` (security.ts line 22). -/
def startingValue (p : SecurityParams) : ℚ :=
  p.initialInvestment - p.oneTimeFee

/-- `netGrowthRate` (security.ts lines 25–27). -/
def netGrowthRate (p : SecurityParams) : ℚ :=
  if p.reinvestDividends then p.annualReturn - p.expenseRatio + p.dividendYield
  else p.annualReturn - p.expenseRatio

/-- One iteration of the loop body of `computeSecurityValues`
(security.ts lines 32–41); the state is
`(compoundedValue, accumulatedDividends)`. -/
def securityStep (p : SecurityParams) (s : ℚ × ℚ) : ℚ × ℚ :=
  let compoundedValue := s.1 * (1 + netGrowthRate p)
  let accumulatedDividends :=
    if p.reinvestDividends then s.2
    else s.2 + (compoundedValue / (1 + netGrowthRate p)) * p.dividendYield
  (compoundedValue, accumulatedDividends)

/-- The loop state of `computeSecurityValues` after `year` iterations. -/
def securityState (p : SecurityParams) : ℕ → ℚ × ℚ
  | 0 => (startingValue p, 0)
  | n + 1 => securityStep p (securityState p n)

/-- `computeSecurityValues` (security.ts lines 12–44): starts with
`startingValue` and pushes `compoundedValue + accumulatedDividends` for each
year `1..years`. -/
def computeSecurityValues (p : SecurityParams) (years : ℕ) : List ℚ :=
  startingValue p ::
    (List.range years).map fun i =>
      (securityState p (i + 1)).1 + (securityState p (i + 1)).2

/-! ## Rental projection (rental.ts, percent-based snapshot) -/

/-- `mortgageAmount = purchasePrice - downPayment` (rental.ts line 31). -/
def mortgageAmount (p : RentalPropertyParams) : ℚ :=
  p.purchasePrice - p.downPayment

/-- `totalMonths = mortgageDuration * 12`, as the natural-number exponent fed
to `Math.pow` (rental.ts line 45).  For the validator-legal domain (positive
integer durations) this is exactly `mortgageDuration * 12`; for other values
JavaScript would compute a real-valued power outside the rational embedding,
so theorems about the amortization divisor carry an integrality hypothesis. -/
def totalMonths (p : RentalPropertyParams) : ℕ :=
  (Int.floor (p.mortgageDuration * 12)).toNat

/-- `annualMortgagePayment` (rental.ts lines 37–49). -/
def annualMortgagePayment (p : RentalPropertyParams) : ℚ :=
  if mortgageAmount p ≤ 0 then 0
  else if p.mortgageRate = 0 then
    mortgageAmount p / (p.mortgageDuration * 12) * 12
  else
    let monthlyRate := p.mortgageRate / 12
    let factor := (1 + monthlyRate) ^ totalMonths p
    mortgageAmount p * (monthlyRate * factor) / (factor - 1) * 12

/-- The loop state of `computeRentalValues`. -/
structure RentalState where
  propertyValue : ℚ
  remainingMortgage : ℚ
  cumulativeCashFlow : ℚ
deriving DecidableEq

/-- `mortgagePaymentThisYear` for a given `year` (rental.ts lines 65–67):
the full annual payment whenever `year <= mortgageDuration` and the original
`mortgageAmount > 0`, else `0`. -/
def mortgagePaymentInYear (p : RentalPropertyParams) (year : ℕ) : ℚ :=
  if (year : ℚ) ≤ p.mortgageDuration ∧ 0 < mortgageAmount p then
    annualMortgagePayment p
  else 0

/-- One iteration of the loop body of `computeRentalValues`
(rental.ts lines 58–95). -/
def rentalStep (p : RentalPropertyParams) (year : ℕ) (s : RentalState) :
    RentalState :=
  let propertyValue := s.propertyValue * (1 + p.annualAppreciation)
  let mortgagePaymentThisYear := mortgagePaymentInYear p year
  let remainingMortgage :=
    if (year : ℚ) ≤ p.mortgageDuration ∧ 0 < mortgageAmount p then
      let interestThisYear := s.remainingMortgage * p.mortgageRate
      let principalThisYear :=
        min (annualMortgagePayment p - interestThisYear) s.remainingMortgage
      max (s.remainingMortgage - principalThisYear) 0
    else s.remainingMortgage
  let maintenance := propertyValue * p.maintenanceCostPercent
  let propertyTax := propertyValue * p.propertyTaxRate
  let insurance := propertyValue * p.annualInsuranceCostPercent
  let totalExpenses := maintenance + insurance + propertyTax
  let effectiveRentalIncome :=
    propertyValue * p.monthlyRentalPercent * 12 * (1 - p.vacancyRate)
  let netCashFlow := effectiveRentalIncome - mortgagePaymentThisYear - totalExpenses
  { propertyValue := propertyValue
    remainingMortgage := remainingMortgage
    cumulativeCashFlow := s.cumulativeCashFlow + netCashFlow }

/-- The loop state of `computeRentalValues` after `year` iterations
(rental.ts lines 54–56 give the initial state). -/
def rentalState (p : RentalPropertyParams) : ℕ → RentalState
  | 0 => ⟨p.purchasePrice, mortgageAmount p, 0⟩
  | n + 1 => rentalStep p (n + 1) (rentalState p n)

/-- The value pushed for a year: `equity + cumulativeCashFlow` where
`equity = propertyValue - remainingMortgage - sellingCosts`
(rental.ts lines 89–94). -/
def rentalTotalValue (p : RentalPropertyParams) (s : RentalState) : ℚ :=
  s.propertyValue - s.remainingMortgage - s.propertyValue * p.sellingCostPercent
    + s.cumulativeCashFlow

/-- `computeRentalValues` (rental.ts lines 16–98). -/
def computeRentalValues (p : RentalPropertyParams) (years : ℕ) : List ℚ :=
  p.downPayment ::
    (List.range years).map fun i => rentalTotalValue p (rentalState p (i + 1))

/-! ## Precious metal projection (precious-metal.ts) -/

/-- `computePreciousMetalValues`: year 0 is the initial investment; each later
year is `initialInvestment * (1 + annualPriceIncrease)^year * (1 - transactionFeePercent)`. -/
def computePreciousMetalValues (p : PreciousMetalParams) (years : ℕ) : List ℚ :=
  p.initialInvestment ::
    (List.range years).map fun i =>
      p.initialInvestment * (1 + p.annualPriceIncrease) ^ (i + 1)
        * (1 - p.transactionFeePercent)

/-! ## Fixed income projection (fixed-income.ts) -/

/-- The value pushed by `computeFixedIncomeValues` for a given `year ≥ 1`
(fixed-income.ts lines 79–104).  `Math.floor(year / maturityYears)` and
`year % maturityYears` are natural division/remainder here. -/
def fixedIncomeValueAt (p : FixedIncomeParams) (year : ℕ) : ℚ :=
  if p.compoundingMethod = CompoundingMethod.simple then
    if p.reinvestAtMaturity then
      let completedCycles := year / p.maturityYears
      let remainder := year % p.maturityYears
      let cycleMultiplier := 1 + p.annualYield * (p.maturityYears : ℚ)
      p.principal * cycleMultiplier ^ completedCycles
        * (1 + p.annualYield * (remainder : ℚ))
    else
      let effectiveYears := min year p.maturityYears
      p.principal * (1 + p.annualYield * (effectiveYears : ℚ))
  else
    if p.reinvestAtMaturity then
      p.principal * (1 + p.annualYield) ^ year
    else
      let effectiveYears := min year p.maturityYears
      p.principal * (1 + p.annualYield) ^ effectiveYears

/-- `computeFixedIncomeValues` (fixed-income.ts lines 74–110). -/
def computeFixedIncomeValues (p : FixedIncomeParams) (years : ℕ) : List ℚ :=
  p.principal :: (List.range years).map fun i => fixedIncomeValueAt p (i + 1)

/-! ## Validators (src/models/validation.ts) -/

/-- `ValidationError` (validation.ts lines 3–6). -/
structure ValidationError where
  field : String
  message : String
deriving DecidableEq

/-- `validateSecurityParams` (validation.ts lines 13–57): each `if` that
pushes an error is one appended singleton. -/
def validateSecurityParams (p : SecurityParams) : List ValidationError :=
  (if p.initialInvestment < 0 then
    [⟨"initialInvestment", "Initial investment must be non-negative"⟩] else [])
  ++ (if p.annualReturn < -1 then
    [⟨"annualReturn", "Annual return cannot be less than -100%"⟩] else [])
  ++ (if p.timeHorizon ≤ 0 then
    [⟨"timeHorizon", "Time horizon must be greater than 0"⟩] else [])
  ++ (if ¬ jsIsInteger p.timeHorizon then
    [⟨"timeHorizon", "Time horizon must be a whole number"⟩] else [])
  ++ (if p.expenseRatio < 0 then
    [⟨"expenseRatio", "Expense ratio must be non-negative"⟩] else [])
  ++ (if p.expenseRatio > 1 then
    [⟨"expenseRatio", "Expense ratio cannot exceed 100%"⟩] else [])
  ++ (if p.oneTimeFee < 0 then
    [⟨"oneTimeFee", "One-time fee must be non-negative"⟩] else [])
  ++ (if p.oneTimeFee > p.initialInvestment then
    [⟨"oneTimeFee", "One-time fee cannot exceed initial investment"⟩] else [])
  ++ (if p.dividendYield < 0 then
    [⟨"dividendYield", "Dividend yield must be non-negative"⟩] else [])
  ++ (if p.dividendYield > 1 then
    [⟨"dividendYield", "Dividend yield cannot exceed 100%"⟩] else [])

/-- `validateRentalParams` (validation.ts lines 64–148).  It reads the
dollar-valued variant fields `monthlyRentalIncome` and `insuranceCost`; the
percent-valued variant fields of the newer schema are not examined. -/
def validateRentalParams (p : RentalPropertyParams) : List ValidationError :=
  (if p.purchasePrice < 0 then
    [⟨"purchasePrice", "Purchase price must be non-negative"⟩] else [])
  ++ (if p.downPayment < 0 then
    [⟨"downPayment", "Down payment must be non-negative"⟩] else [])
  ++ (if p.downPayment > p.purchasePrice then
    [⟨"downPayment", "Down payment cannot exceed purchase price"⟩] else [])
  ++ (if p.mortgageRate < 0 then
    [⟨"mortgageRate", "Mortgage rate must be non-negative"⟩] else [])
  ++ (if p.mortgageRate > 1 then
    [⟨"mortgageRate", "Mortgage rate cannot exceed 100%"⟩] else [])
  ++ (if p.mortgageDuration ≤ 0 then
    [⟨"mortgageDuration", "Mortgage duration must be greater than 0"⟩] else [])
  ++ (if ¬ jsIsInteger p.mortgageDuration then
    [⟨"mortgageDuration", "Mortgage duration must be a whole number"⟩] else [])
  ++ (if p.monthlyRentalIncome < 0 then
    [⟨"monthlyRentalIncome", "Monthly rental income must be non-negative"⟩] else [])
  ++ (if p.annualAppreciation < -1 then
    [⟨"annualAppreciation", "Annual appreciation cannot be less than -100%"⟩] else [])
  ++ (if p.timeHorizon ≤ 0 then
    [⟨"timeHorizon", "Time horizon must be greater than 0"⟩] else [])
  ++ (if ¬ jsIsInteger p.timeHorizon then
    [⟨"timeHorizon", "Time horizon must be a whole number"⟩] else [])
  ++ (if p.maintenanceCostPercent < 0 then
    [⟨"maintenanceCostPercent", "Maintenance cost must be non-negative"⟩] else [])
  ++ (if p.maintenanceCostPercent > 1 then
    [⟨"maintenanceCostPercent", "Maintenance cost cannot exceed 100%"⟩] else [])
  ++ (if p.insuranceCost < 0 then
    [⟨"insuranceCost", "Insurance cost must be non-negative"⟩] else [])
  ++ (if p.propertyTaxRate < 0 then
    [⟨"propertyTaxRate", "Property tax rate must be non-negative"⟩] else [])
  ++ (if p.propertyTaxRate > 1 then
    [⟨"propertyTaxRate", "Property tax rate cannot exceed 100%"⟩] else [])
  ++ (if p.vacancyRate < 0 then
    [⟨"vacancyRate", "Vacancy rate must be non-negative"⟩] else [])
  ++ (if p.vacancyRate > 1 then
    [⟨"vacancyRate", "Vacancy rate cannot exceed 100%"⟩] else [])
  ++ (if p.sellingCostPercent < 0 then
    [⟨"sellingCostPercent", "Selling cost must be non-negative"⟩] else [])
  ++ (if p.sellingCostPercent > 1 then
    [⟨"sellingCostPercent", "Selling cost cannot exceed 100%"⟩] else [])

/-- `validatePreciousMetalParams` (validation.ts lines 155–183). -/
def validatePreciousMetalParams (p : PreciousMetalParams) : List ValidationError :=
  (if p.initialInvestment < 0 then
    [⟨"initialInvestment", "Initial investment must be non-negative"⟩] else [])
  ++ (if p.annualPriceIncrease < -1 then
    [⟨"annualPriceIncrease", "Annual price increase cannot be less than -100%"⟩] else [])
  ++ (if p.timeHorizon ≤ 0 then
    [⟨"timeHorizon", "Time horizon must be greater than 0"⟩] else [])
  ++ (if ¬ jsIsInteger p.timeHorizon then
    [⟨"timeHorizon", "Time horizon must be a whole number"⟩] else [])
  ++ (if p.transactionFeePercent < 0 then
    [⟨"transactionFeePercent", "Transaction fee must be non-negative"⟩] else [])
  ++ (if p.transactionFeePercent > 1 then
    [⟨"transactionFeePercent", "Transaction fee cannot exceed 100%"⟩] else [])

/-- `validateFixedIncomeParams` (validation.ts lines 190–218).  With
`maturityYears : ℕ` the source's `maturityYears <= 0` check fires exactly on
`maturityYears = 0` and its `Number.isInteger` check is vacuous (kept as a
cast to `ℚ` so the shape of the source is preserved). -/
def validateFixedIncomeParams (p : FixedIncomeParams) : List ValidationError :=
  (if p.principal < 0 then
    [⟨"principal", "Principal must be non-negative"⟩] else [])
  ++ (if p.annualYield < -1 then
    [⟨"annualYield", "Annual yield cannot be less than -100%"⟩] else [])
  ++ (if (p.maturityYears : ℚ) ≤ 0 then
    [⟨"maturityYears", "Maturity must be greater than 0"⟩] else [])
  ++ (if ¬ jsIsInteger (p.maturityYears : ℚ) then
    [⟨"maturityYears", "Maturity must be a whole number"⟩] else [])
  ++ (if p.timeHorizon ≤ 0 then
    [⟨"timeHorizon", "Time horizon must be greater than 0"⟩] else [])
  ++ (if ¬ jsIsInteger p.timeHorizon then
    [⟨"timeHorizon", "Time horizon must be a whole number"⟩] else [])

/-! ## Shared helper lemmas -/

/-- Indexing the common `initial :: map body (range years)` output shape at a
year `s + 1 ≤ years`. -/
lemma getElem?_cons_map_range {α : Type} (x : α) (g : ℕ → α) (n s : ℕ)
    (hs : s < n) : (x :: (List.range n).map g)[s + 1]? = some (g s) := by
  simp [List.getElem?_map, List.getElem?_range, hs]

/-- Membership in one appended validator check. -/
lemma mem_ite_nil {α : Type} (c : Prop) [Decidable c] (e a : α) :
    a ∈ (if c then [e] else []) ↔ c ∧ a = e := by
  split <;> simp_all

/-!
## C1 — output length and initial element of the four projections
-/

/-- C1: for every parameter record of each of the four asset classes and every
horizon `years ≥ 0`, the projection returns `years + 1` values, and the value
at index 0 is the documented initial value: `initialInvestment - oneTimeFee`
for securities, `downPayment` for rental property, `initialInvestment` for
precious metal, and `principal` for fixed income. -/
theorem C1_projection_length_and_initial_value :
    (∀ (p : SecurityParams) (years : ℕ),
      (computeSecurityValues p years).length = years + 1 ∧
      (computeSecurityValues p years)[0]? =
        some (p.initialInvestment - p.oneTimeFee)) ∧
    (∀ (p : RentalPropertyParams) (years : ℕ),
      (computeRentalValues p years).length = years + 1 ∧
      (computeRentalValues p years)[0]? = some p.downPayment) ∧
    (∀ (p : PreciousMetalParams) (years : ℕ),
      (computePreciousMetalValues p years).length = years + 1 ∧
      (computePreciousMetalValues p years)[0]? = some p.initialInvestment) ∧
    (∀ (p : FixedIncomeParams) (years : ℕ),
      (computeFixedIncomeValues p years).length = years + 1 ∧
      (computeFixedIncomeValues p years)[0]? = some p.principal) := by
  refine ⟨fun p years => ⟨?_, ?_⟩, fun p years => ⟨?_, ?_⟩,
    fun p years => ⟨?_, ?_⟩, fun p years => ⟨?_, ?_⟩⟩ <;>
    simp [computeSecurityValues, computeRentalValues,
      computePreciousMetalValues, computeFixedIncomeValues, startingValue]

/-!
## C5 — fixed income, simple interest without reinvestment
-/

/-- C5: with `compoundingMethod = simple` and `reinvestAtMaturity = false`,
`values[t] = principal * (1 + annualYield * min t maturityYears)` for every
year `1 ≤ t ≤ years` (so the value flatlines past maturity); in particular
with principal 10000, yield 0.05 and maturity 3 the value is 11500 at every
year `t ≥ 3`. -/
theorem C5_fixed_income_simple_no_reinvest_flatline :
    (∀ (p : FixedIncomeParams) (years t : ℕ),
      p.compoundingMethod = CompoundingMethod.simple →
      p.reinvestAtMaturity = false →
      1 ≤ t → t ≤ years →
      (computeFixedIncomeValues p years)[t]? =
        some (p.principal * (1 + p.annualYield * ((min t p.maturityYears : ℕ) : ℚ)))) ∧
    (∀ years t : ℕ, 3 ≤ t → t ≤ years →
      (computeFixedIncomeValues
        ⟨"", 10000, 1/20, 3, CompoundingMethod.simple, false, 10⟩ years)[t]? =
        some 11500) := by
  have main : ∀ (p : FixedIncomeParams) (years t : ℕ),
      p.compoundingMethod = CompoundingMethod.simple →
      p.reinvestAtMaturity = false →
      1 ≤ t → t ≤ years →
      (computeFixedIncomeValues p years)[t]? =
        some (p.principal * (1 + p.annualYield * ((min t p.maturityYears : ℕ) : ℚ))) := by
    intro p years t hm hr h1 h2
    obtain ⟨s, rfl⟩ : ∃ s, t = s + 1 := ⟨t - 1, by omega⟩
    rw [computeFixedIncomeValues, getElem?_cons_map_range _ _ _ _ (by omega)]
    simp [fixedIncomeValueAt, hm, hr]
  refine ⟨main, fun years t h3 ht => ?_⟩
  rw [main _ years t rfl rfl (by omega) ht]
  have hmin : min t 3 = 3 := min_eq_right h3
  rw [hmin]
  norm_num

/-- Witness for C5 at `principal = 10000`, `annualYield = 0.05`,
`maturityYears = 3`, horizon 5, year 4. -/
theorem C5_witness :
    (computeFixedIncomeValues
      ⟨"", 10000, 1/20, 3, CompoundingMethod.simple, false, 10⟩ 5)[4]? =
      some 11500 :=
  C5_fixed_income_simple_no_reinvest_flatline.2 5 4 (by norm_num) (by norm_num)

/-!
## C6 — fixed income, annual compounding with reinvestment
-/

/-- C6: with `compoundingMethod = annual` and `reinvestAtMaturity = true`,
`values[t] = principal * (1 + annualYield)^t` for every `t ≤ years`,
independent of `maturityYears`: changing only `maturityYears` leaves the
whole output sequence unchanged. -/
theorem C6_fixed_income_annual_reinvest_maturity_independent
    (p : FixedIncomeParams) (years : ℕ)
    (hm : p.compoundingMethod = CompoundingMethod.annual)
    (hr : p.reinvestAtMaturity = true) :
    (∀ t : ℕ, t ≤ years →
      (computeFixedIncomeValues p years)[t]? =
        some (p.principal * (1 + p.annualYield) ^ t)) ∧
    (∀ m : ℕ,
      computeFixedIncomeValues { p with maturityYears := m } years =
        computeFixedIncomeValues p years) := by
  constructor
  · intro t ht
    match t with
    | 0 => simp [computeFixedIncomeValues]
    | s + 1 =>
      rw [computeFixedIncomeValues, getElem?_cons_map_range _ _ _ _ (by omega)]
      simp [fixedIncomeValueAt, hm, hr]
  · intro m
    unfold computeFixedIncomeValues
    simp [fixedIncomeValueAt, hm, hr]

/-- Witness for C6 at the default-like record (`principal = 10000`,
`annualYield = 0.05`, `maturityYears = 5`), horizon 2, year 2. -/
theorem C6_witness :
    (computeFixedIncomeValues
      ⟨"", 10000, 1/20, 5, CompoundingMethod.annual, true, 30⟩ 2)[2]? =
      some 11025 := by
  have h := (C6_fixed_income_annual_reinvest_maturity_independent
    ⟨"", 10000, 1/20, 5, CompoundingMethod.annual, true, 30⟩ 2 rfl rfl).1 2 le_rfl
  rw [h]; norm_num

/-!
## C7 — precious metal projection
-/

/-- C7: `values[0] = initialInvestment` and is unaffected by
`transactionFeePercent`, and for every year `1 ≤ t ≤ years`,
`values[t] = initialInvestment * (1 + annualPriceIncrease)^t * (1 - transactionFeePercent)`. -/
theorem C7_precious_metal_values (p : PreciousMetalParams) (years : ℕ) :
    (computePreciousMetalValues p years)[0]? = some p.initialInvestment ∧
    (∀ fee : ℚ,
      (computePreciousMetalValues { p with transactionFeePercent := fee } years)[0]? =
        (computePreciousMetalValues p years)[0]?) ∧
    (∀ t : ℕ, 1 ≤ t → t ≤ years →
      (computePreciousMetalValues p years)[t]? =
        some (p.initialInvestment * (1 + p.annualPriceIncrease) ^ t
          * (1 - p.transactionFeePercent))) := by
  refine ⟨by simp [computePreciousMetalValues], fun fee => ?_, fun t h1 h2 => ?_⟩
  · simp [computePreciousMetalValues]
  · obtain ⟨s, rfl⟩ : ∃ s, t = s + 1 := ⟨t - 1, by omega⟩
    rw [computePreciousMetalValues, getElem?_cons_map_range _ _ _ _ (by omega)]

/-- Witness for C7 at `initialInvestment = 10000`,
`annualPriceIncrease = 0.05`, `transactionFeePercent = 0.02`, year 1
(the test's `10000 * 1.05 * 0.98 = 10290`). -/
theorem C7_witness :
    (computePreciousMetalValues ⟨"", 10000, 1/20, 10, 1/50⟩ 1)[1]? =
      some 10290 := by
  have h := (C7_precious_metal_values ⟨"", 10000, 1/20, 10, 1/50⟩ 1).2.2 1
    le_rfl le_rfl
  rw [h]; norm_num

/-!
## C4 — security projection without dividend reinvestment

Spec-side tracks, written from the claim's words: a principal track that
compounds at `annualReturn - expenseRatio`, and dividend cash accruing each
year on the prior year's compounded balance, summed without compounding.
-/

/-- The claim's compounded-principal track:
`startingValue * (1 + (annualReturn - expenseRatio))^t`. -/
def compoundedPrincipal (p : SecurityParams) (t : ℕ) : ℚ :=
  startingValue p * (1 + (p.annualReturn - p.expenseRatio)) ^ t

/-- The claim's cumulative dividend cash through year `t`: the uncompounded
sum over years `1..t` of `dividendYield` times the prior year's compounded
balance. -/
def cumulativeDividendCash (p : SecurityParams) (t : ℕ) : ℚ :=
  ∑ k ∈ Finset.range t, compoundedPrincipal p k * p.dividendYield

/-- The loop state of `computeSecurityValues` with `reinvestDividends = false`
matches the claim's two tracks — provided the net growth rate is not `-1`
(the dividend line divides by `1 + netGrowthRate`). -/
lemma securityState_no_reinvest (p : SecurityParams)
    (hr : p.reinvestDividends = false)
    (hne : p.annualReturn - p.expenseRatio ≠ -1) (t : ℕ) :
    securityState p t = (compoundedPrincipal p t, cumulativeDividendCash p t) := by
  have h0 : (1 : ℚ) + (p.annualReturn - p.expenseRatio) ≠ 0 := fun hc =>
    hne (by linarith)
  induction t with
  | zero => simp [securityState, compoundedPrincipal, cumulativeDividendCash]
  | succ n ih =>
    rw [securityState, ih, securityStep]
    simp only [hr, netGrowthRate, Bool.false_eq_true, if_false, Prod.mk.injEq]
    constructor
    · rw [compoundedPrincipal, compoundedPrincipal, pow_succ]; ring
    · rw [mul_div_cancel_right₀ _ h0, cumulativeDividendCash,
        cumulativeDividendCash, Finset.sum_range_succ]

/-- C4 (amended): with `reinvestDividends = false` **and net growth rate
`annualReturn - expenseRatio ≠ -1`**, `values[t]` is the compounded principal
at year `t` plus the cumulative uncompounded dividend cash through year `t`,
where each year's dividend is `dividendYield` times the prior year's
compounded balance. -/
theorem C4_security_no_reinvest_decomposition (p : SecurityParams)
    (years t : ℕ) (hr : p.reinvestDividends = false)
    (hne : p.annualReturn - p.expenseRatio ≠ -1) (ht : t ≤ years) :
    (computeSecurityValues p years)[t]? =
      some (compoundedPrincipal p t + cumulativeDividendCash p t) := by
  match t with
  | 0 =>
    simp [computeSecurityValues, compoundedPrincipal, cumulativeDividendCash,
      startingValue]
  | s + 1 =>
    rw [computeSecurityValues, getElem?_cons_map_range _ _ _ _ (by omega),
      securityState_no_reinvest p hr hne]

/-- Witness for C4 at the test record (`initialInvestment = 10000`,
`annualReturn = 0.1`, `dividendYield = 0.02`, no reinvestment), horizon 2,
year 2: `12100 + (200 + 220) = 12520`. -/
theorem C4_witness :
    (computeSecurityValues ⟨"", 10000, 1/10, 10, 0, 0, 1/50, false⟩ 2)[2]? =
      some 12520 := by
  rw [C4_security_no_reinvest_decomposition _ 2 2 rfl (by norm_num) le_rfl]
  norm_num [compoundedPrincipal, cumulativeDividendCash, startingValue,
    Finset.sum_range_succ]

/-- C4 counterexample: at `annualReturn = 0`, `expenseRatio = 1`,
`dividendYield = 1/2`, `reinvestDividends = false` (all accepted by
`validateSecurityParams`) the net growth rate is `-1`; the code's year-1
value is `0` (in JavaScript the dividend line computes `0 / 0 = NaN`), while
the claim's decomposition gives `1/2`. -/
theorem C4_counterexample :
    validateSecurityParams ⟨"", 1, 0, 10, 1, 0, 1/2, false⟩ = [] ∧
    (computeSecurityValues ⟨"", 1, 0, 10, 1, 0, 1/2, false⟩ 1)[1]? = some 0 ∧
    compoundedPrincipal ⟨"", 1, 0, 10, 1, 0, 1/2, false⟩ 1 +
      cumulativeDividendCash ⟨"", 1, 0, 10, 1, 0, 1/2, false⟩ 1 = 1/2 := by
  refine ⟨?_, ?_, ?_⟩
  · norm_num [validateSecurityParams, jsIsInteger, Rat.den_ofNat]
  · rw [computeSecurityValues, getElem?_cons_map_range _ _ _ _ (by omega)]
    norm_num [securityState, securityStep, netGrowthRate, startingValue]
  · norm_num [compoundedPrincipal, cumulativeDividendCash, startingValue,
      Finset.sum_range_succ]

/-!
## C9 — rental projection constant at the down payment
-/

/-- With zero appreciation, zero mortgage rate, zero percent-based rental
income and zero percent-based running costs, the rental loop state keeps the
property value at the purchase price, and the cumulative cash flow exactly
mirrors the mortgage principal paid down so far; while the mortgage is being
paid the balance declines linearly by `mortgageAmount / mortgageDuration`
per year. -/
lemma rentalState_flat (p : RentalPropertyParams)
    (ha : p.annualAppreciation = 0) (hr : p.mortgageRate = 0)
    (hmr : p.monthlyRentalPercent = 0) (hmc : p.maintenanceCostPercent = 0)
    (hic : p.annualInsuranceCostPercent = 0) (htx : p.propertyTaxRate = 0) :
    ∀ y : ℕ, (rentalState p y).propertyValue = p.purchasePrice ∧
      (rentalState p y).cumulativeCashFlow =
        (rentalState p y).remainingMortgage - mortgageAmount p ∧
      (0 < mortgageAmount p → 0 < p.mortgageDuration →
        (y : ℚ) ≤ p.mortgageDuration →
        (rentalState p y).remainingMortgage =
          mortgageAmount p * (p.mortgageDuration - y) / p.mortgageDuration) := by
  intro y
  induction y with
  | zero =>
    refine ⟨rfl, by simp [rentalState], fun hM hd h0 => ?_⟩
    show mortgageAmount p = _
    push_cast
    rw [sub_zero, mul_div_assoc, div_self (ne_of_gt hd), mul_one]
  | succ n ih =>
    obtain ⟨ihp, ihc, ihm⟩ := ih
    by_cases hg : ((n + 1 : ℕ) : ℚ) ≤ p.mortgageDuration ∧ 0 < mortgageAmount p
    · have hd : (0 : ℚ) < p.mortgageDuration := by
        have h1 : (1 : ℚ) ≤ ((n + 1 : ℕ) : ℚ) := by push_cast; linarith [Nat.cast_nonneg (α := ℚ) n]
        linarith [hg.1]
      have hyd : ((n : ℕ) : ℚ) ≤ p.mortgageDuration := by
        have := hg.1; push_cast at this ⊢; linarith
      have hrem : (rentalState p n).remainingMortgage =
          mortgageAmount p * (p.mortgageDuration - n) / p.mortgageDuration :=
        ihm hg.2 hd hyd
      have hpay : annualMortgagePayment p =
          mortgageAmount p / p.mortgageDuration := by
        rw [annualMortgagePayment, if_neg (not_le.2 hg.2), if_pos hr]
        field_simp; ring
      have h1d : (1 : ℚ) ≤ p.mortgageDuration - n := by
        have := hg.1; push_cast at this ⊢; linarith
      have hstep : mortgageAmount p / p.mortgageDuration ≤
          (rentalState p n).remainingMortgage := by
        rw [hrem, div_le_div_iff₀ hd hd]
        nlinarith [hg.2, hd, h1d, mul_pos hg.2 hd]
      have hpv : (rentalState p (n + 1)).propertyValue = p.purchasePrice := by
        show (rentalStep p (n + 1) (rentalState p n)).propertyValue = _
        simp only [rentalStep]
        rw [ihp, ha]; ring
      have hrem1 : (rentalState p (n + 1)).remainingMortgage =
          (rentalState p n).remainingMortgage -
            mortgageAmount p / p.mortgageDuration := by
        show (rentalStep p (n + 1) (rentalState p n)).remainingMortgage = _
        simp only [rentalStep, if_pos hg]
        rw [hr, mul_zero, sub_zero, hpay, min_eq_left hstep]
        exact max_eq_left (by linarith)
      have hccf : (rentalState p (n + 1)).cumulativeCashFlow =
          (rentalState p n).cumulativeCashFlow -
            mortgageAmount p / p.mortgageDuration := by
        show (rentalStep p (n + 1) (rentalState p n)).cumulativeCashFlow = _
        simp only [rentalStep, mortgagePaymentInYear, if_pos hg]
        rw [hmr, hmc, hic, htx, hpay]; ring
      refine ⟨hpv, ?_, fun hM hd2 hsucc => ?_⟩
      · rw [hccf, hrem1, ihc]; ring
      · rw [hrem1, hrem]
        have hd0 : p.mortgageDuration ≠ 0 := ne_of_gt hd
        push_cast
        field_simp
        ring
    · have hpv : (rentalState p (n + 1)).propertyValue = p.purchasePrice := by
        show (rentalStep p (n + 1) (rentalState p n)).propertyValue = _
        simp only [rentalStep]
        rw [ihp, ha]; ring
      have hrem1 : (rentalState p (n + 1)).remainingMortgage =
          (rentalState p n).remainingMortgage := by
        show (rentalStep p (n + 1) (rentalState p n)).remainingMortgage = _
        simp only [rentalStep, if_neg hg]
      have hccf : (rentalState p (n + 1)).cumulativeCashFlow =
          (rentalState p n).cumulativeCashFlow := by
        show (rentalStep p (n + 1) (rentalState p n)).cumulativeCashFlow = _
        simp only [rentalStep, mortgagePaymentInYear, if_neg hg]
        rw [hmr, hmc, hic, htx]; ring
      refine ⟨hpv, ?_, fun hM hd2 hsucc => absurd ⟨hsucc, hM⟩ hg⟩
      rw [hccf, hrem1, ihc]

/-- C9 (amended): for every rental record with `annualAppreciation = 0`,
`mortgageRate = 0`, zero percent-based monthly rental income **and zero
`maintenanceCostPercent`, `annualInsuranceCostPercent`, `propertyTaxRate`
and `sellingCostPercent`**, the projected value is `downPayment` at every
year of every horizon. -/
theorem C9_rental_value_constant_at_downPayment (p : RentalPropertyParams)
    (years : ℕ) (ha : p.annualAppreciation = 0) (hr : p.mortgageRate = 0)
    (hmr : p.monthlyRentalPercent = 0) (hmc : p.maintenanceCostPercent = 0)
    (hic : p.annualInsuranceCostPercent = 0) (htx : p.propertyTaxRate = 0)
    (hsc : p.sellingCostPercent = 0) :
    computeRentalValues p years = List.replicate (years + 1) p.downPayment := by
  have key : ∀ y : ℕ, rentalTotalValue p (rentalState p y) = p.downPayment := by
    intro y
    obtain ⟨h1, h2, _⟩ := rentalState_flat p ha hr hmr hmc hic htx y
    rw [rentalTotalValue, h1, h2, hsc, mortgageAmount]; ring
  rw [computeRentalValues, List.replicate_succ]
  congr 1
  apply List.eq_replicate_iff.2
  refine ⟨by simp, fun b hb => ?_⟩
  simp only [List.mem_map, List.mem_range] at hb
  obtain ⟨i, _, rfl⟩ := hb
  exact key (i + 1)

/-- Witness for C9 at the test's baseline shape (price 300000, down payment
60000, zero rate, 30-year term, all percent rates zero), horizon 2. -/
theorem C9_witness :
    computeRentalValues ⟨"", 300000, 60000, 0, 30, 0, 0, 0, 30, 0, 0, 0, 0, 0, 0⟩ 2 =
      List.replicate 3 (60000 : ℚ) :=
  C9_rental_value_constant_at_downPayment _ 2 rfl rfl rfl rfl rfl rfl rfl

/-- C9 counterexample: the claim quantifies over **every** rental record with
the three zero conditions, but a nonzero `propertyTaxRate` (0.1 here, with
purchase price 100, down payment 0, zero rate, 1-year term) drags year 1 to
`-10 ≠ 0 = downPayment`. -/
theorem C9_counterexample :
    (⟨"", 100, 0, 0, 1, 0, 0, 0, 10, 0, 0, 0, 1/10, 0, 0⟩ :
        RentalPropertyParams).annualAppreciation = 0 ∧
    (⟨"", 100, 0, 0, 1, 0, 0, 0, 10, 0, 0, 0, 1/10, 0, 0⟩ :
        RentalPropertyParams).mortgageRate = 0 ∧
    (⟨"", 100, 0, 0, 1, 0, 0, 0, 10, 0, 0, 0, 1/10, 0, 0⟩ :
        RentalPropertyParams).monthlyRentalIncome = 0 ∧
    (⟨"", 100, 0, 0, 1, 0, 0, 0, 10, 0, 0, 0, 1/10, 0, 0⟩ :
        RentalPropertyParams).monthlyRentalPercent = 0 ∧
    (computeRentalValues ⟨"", 100, 0, 0, 1, 0, 0, 0, 10, 0, 0, 0, 1/10, 0, 0⟩ 1)[1]? =
      some ((-10 : ℚ)) ∧
    (⟨"", 100, 0, 0, 1, 0, 0, 0, 10, 0, 0, 0, 1/10, 0, 0⟩ :
        RentalPropertyParams).downPayment = 0 := by
  refine ⟨rfl, rfl, rfl, rfl, ?_, rfl⟩
  norm_num [computeRentalValues, List.range_succ, rentalState, rentalStep,
    rentalTotalValue, mortgagePaymentInYear, annualMortgagePayment,
    mortgageAmount]

/-!
## C2 — rental mortgage payment and amortization schedule
-/

/-- C2 (amended): in the rental projection, for each year `y ≥ 1` the
mortgage payment and the amortization update occur exactly while
`y ≤ mortgageDuration` **and the original `mortgageAmount > 0`** (the
remaining balance is not consulted); in a payment year the balance becomes
`max (balance - min (annualPayment - balance * mortgageRate) balance) 0`;
outside payment years the payment is 0 and the balance **stays at its
current value** (not necessarily 0) — in particular it is constant from any
year past `mortgageDuration` on. -/
theorem C2_rental_mortgage_schedule :
    (∀ (p : RentalPropertyParams) (k : ℕ),
      ((((k + 1 : ℕ) : ℚ) ≤ p.mortgageDuration ∧ 0 < mortgageAmount p) →
        mortgagePaymentInYear p (k + 1) = annualMortgagePayment p ∧
        (rentalState p (k + 1)).remainingMortgage =
          max ((rentalState p k).remainingMortgage -
            min (annualMortgagePayment p -
                  (rentalState p k).remainingMortgage * p.mortgageRate)
                ((rentalState p k).remainingMortgage)) 0) ∧
      (¬ (((k + 1 : ℕ) : ℚ) ≤ p.mortgageDuration ∧ 0 < mortgageAmount p) →
        mortgagePaymentInYear p (k + 1) = 0 ∧
        (rentalState p (k + 1)).remainingMortgage =
          (rentalState p k).remainingMortgage)) ∧
    (∀ (p : RentalPropertyParams) (y z : ℕ),
      p.mortgageDuration < (y : ℚ) → y ≤ z →
      mortgagePaymentInYear p z = 0 ∧
      (rentalState p z).remainingMortgage =
        (rentalState p y).remainingMortgage) := by
  constructor
  · intro p k
    constructor
    · intro h
      refine ⟨by rw [mortgagePaymentInYear, if_pos h], ?_⟩
      show (rentalStep p (k + 1) (rentalState p k)).remainingMortgage = _
      simp only [rentalStep, if_pos h]
    · intro h
      refine ⟨by rw [mortgagePaymentInYear, if_neg h], ?_⟩
      show (rentalStep p (k + 1) (rentalState p k)).remainingMortgage = _
      simp only [rentalStep, if_neg h]
  · intro p y z hy hyz
    have hlt : ∀ w : ℕ, y ≤ w → p.mortgageDuration < (w : ℚ) := fun w hw =>
      lt_of_lt_of_le hy (by exact_mod_cast hw)
    have hcond : ∀ w : ℕ, y ≤ w →
        ¬ ((w : ℚ) ≤ p.mortgageDuration ∧ 0 < mortgageAmount p) := by
      rintro w hw ⟨h1, _⟩
      exact absurd h1 (not_le.2 (hlt w hw))
    refine ⟨by rw [mortgagePaymentInYear, if_neg (hcond z hyz)], ?_⟩
    induction z, hyz using Nat.le_induction with
    | base => rfl
    | succ m hm ih =>
      have heq : (rentalState p (m + 1)).remainingMortgage =
          (rentalState p m).remainingMortgage := by
        show (rentalStep p (m + 1) (rentalState p m)).remainingMortgage = _
        simp only [rentalStep, if_neg (hcond (m + 1) (by omega))]
      rw [heq, ih]

/-- Concrete rental record for the C2 witness and counterexample: purchase
price 1, down payment 0, mortgage rate 100%, 1-year term. -/
def rentalCexParams : RentalPropertyParams :=
  ⟨"", 1, 0, 1, 1, 0, 0, 0, 10, 0, 0, 0, 0, 0, 0⟩

/-- Second concrete rental record for the C2 counterexample: mortgage rate
`-100%` drives the balance to 0 in year 1 of a 2-year term, after which a
full payment is still charged in year 2. -/
def rentalCexParams2 : RentalPropertyParams :=
  ⟨"", 1, 0, -1, 2, 0, 0, 0, 10, 0, 0, 0, 0, 0, 0⟩

/-- Witness for C2 (amended), post-duration part: for the 1-year-term record,
year 3 (past the duration, entered from year 2) has payment 0 and an
unchanged balance. -/
theorem C2_witness :
    mortgagePaymentInYear rentalCexParams 3 = 0 ∧
    (rentalState rentalCexParams 3).remainingMortgage =
      (rentalState rentalCexParams 2).remainingMortgage :=
  C2_rental_mortgage_schedule.2 rentalCexParams 2 3 (by norm_num [rentalCexParams])
    (by omega)

/-- C2 counterexample, refuting two clauses of the claim as stated:
(1) for the 100%-rate 1-year-term record the remaining balance at year 2 —
past `mortgageDuration` — is `2 - (13/12)^12 / ((13/12)^12 - 1) ≠ 0`, so the
balance does **not** stay 0 after the duration; (2) for the `-100%`-rate
2-year-term record the balance is already 0 after year 1, yet year 2 still
satisfies the code's payment guard and is charged a nonzero mortgage
payment, so payment is **not** conditioned on remaining principal `> 0`. -/
theorem C2_counterexample :
    (rentalCexParams.mortgageDuration < ((2 : ℕ) : ℚ) ∧
      (rentalState rentalCexParams 2).remainingMortgage ≠ 0) ∧
    ((rentalState rentalCexParams2 1).remainingMortgage = 0 ∧
      (((2 : ℕ) : ℚ) ≤ rentalCexParams2.mortgageDuration ∧
        0 < mortgageAmount rentalCexParams2) ∧
      mortgagePaymentInYear rentalCexParams2 2 ≠ 0) := by
  refine ⟨⟨by norm_num [rentalCexParams], ?_⟩, ?_, ⟨?_, ?_⟩, ?_⟩
  · norm_num [rentalState, rentalStep, rentalCexParams, mortgagePaymentInYear,
      annualMortgagePayment, mortgageAmount, totalMonths,
      show ((12 : ℤ)).toNat = 12 from rfl, min_def, max_def]
  · norm_num [rentalState, rentalStep, rentalCexParams2, mortgagePaymentInYear,
      annualMortgagePayment, mortgageAmount, totalMonths,
      show ((24 : ℤ)).toNat = 24 from rfl, min_def, max_def]
  · norm_num [rentalCexParams2]
  · norm_num [rentalCexParams2, mortgageAmount]
  · norm_num [rentalCexParams2, mortgagePaymentInYear, annualMortgagePayment,
      mortgageAmount, totalMonths, show ((24 : ℤ)).toNat = 24 from rfl]

/-!
## C8 — validators return one error per violated bound

Spec-side bound predicates, written from the spec's §3 field bounds.
-/

/-- `jsIsInteger` agrees with the spec's notion of being an integer. -/
lemma jsIsInteger_iff (q : ℚ) : jsIsInteger q ↔ ∃ n : ℤ, (n : ℚ) = q := by
  unfold jsIsInteger
  constructor
  · intro h; exact ⟨q.num, (Rat.den_eq_one_iff q).mp h⟩
  · rintro ⟨n, rfl⟩; exact Rat.den_intCast n

/-- One appended validator check is empty iff its condition fails. -/
lemma ite_singleton_eq_nil {α : Type} (c : Prop) [Decidable c] (e : α) :
    (if c then [e] else []) = [] ↔ ¬ c := by
  split <;> simp_all

/-- The spec's documented bounds for `SecurityParams`. -/
def SecurityParamsValid (p : SecurityParams) : Prop :=
  0 ≤ p.initialInvestment ∧ -1 ≤ p.annualReturn ∧
  (0 < p.timeHorizon ∧ ∃ n : ℤ, (n : ℚ) = p.timeHorizon) ∧
  (0 ≤ p.expenseRatio ∧ p.expenseRatio ≤ 1) ∧
  (0 ≤ p.oneTimeFee ∧ p.oneTimeFee ≤ p.initialInvestment) ∧
  (0 ≤ p.dividendYield ∧ p.dividendYield ≤ 1)

/-- The spec's documented bounds for `RentalPropertyParams` (the fields the
validator checks). -/
def RentalParamsValid (p : RentalPropertyParams) : Prop :=
  0 ≤ p.purchasePrice ∧
  (0 ≤ p.downPayment ∧ p.downPayment ≤ p.purchasePrice) ∧
  (0 ≤ p.mortgageRate ∧ p.mortgageRate ≤ 1) ∧
  (0 < p.mortgageDuration ∧ ∃ n : ℤ, (n : ℚ) = p.mortgageDuration) ∧
  0 ≤ p.monthlyRentalIncome ∧ -1 ≤ p.annualAppreciation ∧
  (0 < p.timeHorizon ∧ ∃ n : ℤ, (n : ℚ) = p.timeHorizon) ∧
  (0 ≤ p.maintenanceCostPercent ∧ p.maintenanceCostPercent ≤ 1) ∧
  0 ≤ p.insuranceCost ∧
  (0 ≤ p.propertyTaxRate ∧ p.propertyTaxRate ≤ 1) ∧
  (0 ≤ p.vacancyRate ∧ p.vacancyRate ≤ 1) ∧
  (0 ≤ p.sellingCostPercent ∧ p.sellingCostPercent ≤ 1)

/-- The spec's documented bounds for `PreciousMetalParams`. -/
def PreciousMetalParamsValid (p : PreciousMetalParams) : Prop :=
  0 ≤ p.initialInvestment ∧ -1 ≤ p.annualPriceIncrease ∧
  (0 < p.timeHorizon ∧ ∃ n : ℤ, (n : ℚ) = p.timeHorizon) ∧
  (0 ≤ p.transactionFeePercent ∧ p.transactionFeePercent ≤ 1)

/-- The spec's documented bounds for `FixedIncomeParams`. -/
def FixedIncomeParamsValid (p : FixedIncomeParams) : Prop :=
  0 ≤ p.principal ∧ -1 ≤ p.annualYield ∧ 0 < p.maturityYears ∧
  (0 < p.timeHorizon ∧ ∃ n : ℤ, (n : ℚ) = p.timeHorizon)

/-- `DEFAULT_SECURITY_PARAMS` from types.ts. -/
def DEFAULT_SECURITY_PARAMS : SecurityParams :=
  ⟨"", 10000, 7/100, 30, 1/1000, 0, 0, true⟩

/-- `DEFAULT_RENTAL_PARAMS`: the union of the two snapshots' default records
(dollar-valued defaults 2000/1500, percent-valued defaults 0.01/0.01). -/
def DEFAULT_RENTAL_PARAMS : RentalPropertyParams :=
  ⟨"", 300000, 60000, 13/200, 30, 2000, 1/100, 3/100, 30, 1/100, 1500, 1/100,
    3/250, 1/20, 3/50⟩

/-- `DEFAULT_PRECIOUS_METAL_PARAMS` from types.ts. -/
def DEFAULT_PRECIOUS_METAL_PARAMS : PreciousMetalParams :=
  ⟨"", 10000, 1/20, 30, 1/50⟩

/-- `DEFAULT_FIXED_INCOME_PARAMS` from types.ts. -/
def DEFAULT_FIXED_INCOME_PARAMS : FixedIncomeParams :=
  ⟨"", 10000, 1/20, 5, CompoundingMethod.annual, true, 30⟩

/-- The security validator accepts exactly the spec's bounds. -/
lemma validateSecurityParams_eq_nil_iff (p : SecurityParams) :
    validateSecurityParams p = [] ↔ SecurityParamsValid p := by
  rw [validateSecurityParams, SecurityParamsValid]
  simp only [List.append_eq_nil, ite_singleton_eq_nil, not_lt, not_not,
    not_le, gt_iff_lt, jsIsInteger_iff]
  tauto

/-- The rental validator accepts exactly the spec's bounds (on the
dollar-valued variant fields it reads). -/
lemma validateRentalParams_eq_nil_iff (p : RentalPropertyParams) :
    validateRentalParams p = [] ↔ RentalParamsValid p := by
  rw [validateRentalParams, RentalParamsValid]
  simp only [List.append_eq_nil, ite_singleton_eq_nil, not_lt, not_not,
    not_le, gt_iff_lt, jsIsInteger_iff]
  tauto

/-- The precious-metal validator accepts exactly the spec's bounds. -/
lemma validatePreciousMetalParams_eq_nil_iff (p : PreciousMetalParams) :
    validatePreciousMetalParams p = [] ↔ PreciousMetalParamsValid p := by
  rw [validatePreciousMetalParams, PreciousMetalParamsValid]
  simp only [List.append_eq_nil, ite_singleton_eq_nil, not_lt, not_not,
    not_le, gt_iff_lt, jsIsInteger_iff]
  tauto

/-- The fixed-income validator accepts exactly the spec's bounds. -/
lemma validateFixedIncomeParams_eq_nil_iff (p : FixedIncomeParams) :
    validateFixedIncomeParams p = [] ↔ FixedIncomeParamsValid p := by
  rw [validateFixedIncomeParams, FixedIncomeParamsValid]
  have hint : ∃ n : ℤ, (n : ℚ) = (p.maturityYears : ℚ) :=
    ⟨p.maturityYears, by push_cast; ring⟩
  simp only [List.append_eq_nil, ite_singleton_eq_nil, not_lt, not_not,
    not_le, gt_iff_lt, jsIsInteger_iff, Nat.cast_pos]
  tauto

/-- C8: each validator returns the empty list exactly when all of its
documented bounds hold, returns an entry naming a field exactly when one of
that field's bounds is violated (so every violated bound is reported — it
does not stop at the first violation), and accepts the source's default
record of each asset class. -/
theorem C8_validators_report_every_violated_bound :
    (∀ p : SecurityParams, validateSecurityParams p = [] ↔ SecurityParamsValid p) ∧
    (∀ p : RentalPropertyParams, validateRentalParams p = [] ↔ RentalParamsValid p) ∧
    (∀ p : PreciousMetalParams,
      validatePreciousMetalParams p = [] ↔ PreciousMetalParamsValid p) ∧
    (∀ p : FixedIncomeParams,
      validateFixedIncomeParams p = [] ↔ FixedIncomeParamsValid p) ∧
    (∀ p : SecurityParams,
      ("initialInvestment" ∈ (validateSecurityParams p).map (fun e => e.field) ↔
        p.initialInvestment < 0) ∧
      ("annualReturn" ∈ (validateSecurityParams p).map (fun e => e.field) ↔
        p.annualReturn < -1) ∧
      ("timeHorizon" ∈ (validateSecurityParams p).map (fun e => e.field) ↔
        (p.timeHorizon ≤ 0 ∨ ¬ jsIsInteger p.timeHorizon)) ∧
      ("expenseRatio" ∈ (validateSecurityParams p).map (fun e => e.field) ↔
        (p.expenseRatio < 0 ∨ 1 < p.expenseRatio)) ∧
      ("oneTimeFee" ∈ (validateSecurityParams p).map (fun e => e.field) ↔
        (p.oneTimeFee < 0 ∨ p.initialInvestment < p.oneTimeFee)) ∧
      ("dividendYield" ∈ (validateSecurityParams p).map (fun e => e.field) ↔
        (p.dividendYield < 0 ∨ 1 < p.dividendYield))) ∧
    (∀ p : RentalPropertyParams,
      ("purchasePrice" ∈ (validateRentalParams p).map (fun e => e.field) ↔
        p.purchasePrice < 0) ∧
      ("downPayment" ∈ (validateRentalParams p).map (fun e => e.field) ↔
        (p.downPayment < 0 ∨ p.purchasePrice < p.downPayment)) ∧
      ("mortgageRate" ∈ (validateRentalParams p).map (fun e => e.field) ↔
        (p.mortgageRate < 0 ∨ 1 < p.mortgageRate)) ∧
      ("mortgageDuration" ∈ (validateRentalParams p).map (fun e => e.field) ↔
        (p.mortgageDuration ≤ 0 ∨ ¬ jsIsInteger p.mortgageDuration)) ∧
      ("monthlyRentalIncome" ∈ (validateRentalParams p).map (fun e => e.field) ↔
        p.monthlyRentalIncome < 0) ∧
      ("annualAppreciation" ∈ (validateRentalParams p).map (fun e => e.field) ↔
        p.annualAppreciation < -1) ∧
      ("timeHorizon" ∈ (validateRentalParams p).map (fun e => e.field) ↔
        (p.timeHorizon ≤ 0 ∨ ¬ jsIsInteger p.timeHorizon)) ∧
      ("maintenanceCostPercent" ∈ (validateRentalParams p).map (fun e => e.field) ↔
        (p.maintenanceCostPercent < 0 ∨ 1 < p.maintenanceCostPercent)) ∧
      ("insuranceCost" ∈ (validateRentalParams p).map (fun e => e.field) ↔
        p.insuranceCost < 0) ∧
      ("propertyTaxRate" ∈ (validateRentalParams p).map (fun e => e.field) ↔
        (p.propertyTaxRate < 0 ∨ 1 < p.propertyTaxRate)) ∧
      ("vacancyRate" ∈ (validateRentalParams p).map (fun e => e.field) ↔
        (p.vacancyRate < 0 ∨ 1 < p.vacancyRate)) ∧
      ("sellingCostPercent" ∈ (validateRentalParams p).map (fun e => e.field) ↔
        (p.sellingCostPercent < 0 ∨ 1 < p.sellingCostPercent))) ∧
    (∀ p : PreciousMetalParams,
      ("initialInvestment" ∈ (validatePreciousMetalParams p).map (fun e => e.field) ↔
        p.initialInvestment < 0) ∧
      ("annualPriceIncrease" ∈ (validatePreciousMetalParams p).map (fun e => e.field) ↔
        p.annualPriceIncrease < -1) ∧
      ("timeHorizon" ∈ (validatePreciousMetalParams p).map (fun e => e.field) ↔
        (p.timeHorizon ≤ 0 ∨ ¬ jsIsInteger p.timeHorizon)) ∧
      ("transactionFeePercent" ∈ (validatePreciousMetalParams p).map (fun e => e.field) ↔
        (p.transactionFeePercent < 0 ∨ 1 < p.transactionFeePercent))) ∧
    (∀ p : FixedIncomeParams,
      ("principal" ∈ (validateFixedIncomeParams p).map (fun e => e.field) ↔
        p.principal < 0) ∧
      ("annualYield" ∈ (validateFixedIncomeParams p).map (fun e => e.field) ↔
        p.annualYield < -1) ∧
      ("maturityYears" ∈ (validateFixedIncomeParams p).map (fun e => e.field) ↔
        p.maturityYears = 0) ∧
      ("timeHorizon" ∈ (validateFixedIncomeParams p).map (fun e => e.field) ↔
        (p.timeHorizon ≤ 0 ∨ ¬ jsIsInteger p.timeHorizon))) ∧
    validateSecurityParams DEFAULT_SECURITY_PARAMS = [] ∧
    validateRentalParams DEFAULT_RENTAL_PARAMS = [] ∧
    validatePreciousMetalParams DEFAULT_PRECIOUS_METAL_PARAMS = [] ∧
    validateFixedIncomeParams DEFAULT_FIXED_INCOME_PARAMS = [] := by
  refine ⟨validateSecurityParams_eq_nil_iff, validateRentalParams_eq_nil_iff,
    validatePreciousMetalParams_eq_nil_iff, validateFixedIncomeParams_eq_nil_iff,
    ?_, ?_, ?_, ?_, ?_, ?_, ?_, ?_⟩
  all_goals
    first
      | (intro p
         refine ⟨?_, ?_, ?_, ?_, ?_, ?_, ?_, ?_, ?_, ?_, ?_, ?_⟩ <;>
           simp [validateSecurityParams, validateRentalParams,
             validatePreciousMetalParams, validateFixedIncomeParams,
             mem_ite_nil, and_assoc, exists_and_left, exists_eq_left,
             jsIsInteger, Rat.den_natCast, Nat.cast_nonpos, Nat.le_zero])
      | (intro p
         refine ⟨?_, ?_, ?_, ?_, ?_, ?_⟩ <;>
           simp [validateSecurityParams, mem_ite_nil, and_assoc,
             exists_and_left, exists_eq_left, jsIsInteger])
      | (intro p
         refine ⟨?_, ?_, ?_, ?_⟩ <;>
           simp [validatePreciousMetalParams, validateFixedIncomeParams,
             mem_ite_nil, and_assoc, exists_and_left, exists_eq_left,
             jsIsInteger, Rat.den_natCast, Nat.cast_nonpos, Nat.le_zero])
      | norm_num [validateSecurityParams, validateRentalParams,
          validatePreciousMetalParams, validateFixedIncomeParams,
          DEFAULT_SECURITY_PARAMS, DEFAULT_RENTAL_PARAMS,
          DEFAULT_PRECIOUS_METAL_PARAMS, DEFAULT_FIXED_INCOME_PARAMS,
          jsIsInteger, Rat.den_ofNat, Rat.den_natCast]

/-!
## C10 — the rental validator ignores the percent-variant fields
-/

/-- Rental record whose validator-checked fields are all in range but whose
percent-variant fields (`monthlyRentalPercent`, `annualInsuranceCostPercent`)
are negative. -/
def rentalC10Params : RentalPropertyParams :=
  ⟨"", 300000, 60000, 0, 30, 2000, -1/100, 0, 30, 0, 1500, -1/50, 0, 0, 0⟩

/-- C10: `validateRentalParams` never examines `monthlyRentalPercent` or
`annualInsuranceCostPercent` — records differing only in those two fields get
identical error lists, and a record with negative values there but all
checked fields in range validates cleanly, even though `computeRentalValues`
reads both fields (changing them changes the projection). -/
theorem C10_rental_validator_ignores_percent_fields :
    (∀ (p : RentalPropertyParams) (v w : ℚ),
      validateRentalParams
        { p with monthlyRentalPercent := v, annualInsuranceCostPercent := w } =
        validateRentalParams p) ∧
    rentalC10Params.monthlyRentalPercent < 0 ∧
    rentalC10Params.annualInsuranceCostPercent < 0 ∧
    validateRentalParams rentalC10Params = [] ∧
    computeRentalValues rentalC10Params 1 ≠
      computeRentalValues
        { rentalC10Params with
            monthlyRentalPercent := 0
            annualInsuranceCostPercent := 0 } 1 := by
  refine ⟨fun p v w => rfl, by norm_num [rentalC10Params],
    by norm_num [rentalC10Params], ?_, ?_⟩
  · norm_num [validateRentalParams, rentalC10Params, jsIsInteger, Rat.den_ofNat]
  · norm_num [computeRentalValues, List.range_succ, rentalState, rentalStep,
      rentalTotalValue, mortgagePaymentInYear, annualMortgagePayment,
      mortgageAmount, rentalC10Params, min_def, max_def]

/-- Witness for C10: perturbing the two percent-variant fields of the default
rental record leaves the validator output unchanged. -/
theorem C10_witness :
    validateRentalParams
      { DEFAULT_RENTAL_PARAMS with
          monthlyRentalPercent := 5
          annualInsuranceCostPercent := 7 } =
      validateRentalParams DEFAULT_RENTAL_PARAMS :=
  C10_rental_validator_ignores_percent_fields.1 DEFAULT_RENTAL_PARAMS 5 7

/-- Witness for C8: the source's default security record validates cleanly.
-/
theorem C8_witness : validateSecurityParams DEFAULT_SECURITY_PARAMS = [] :=
  C8_validators_report_every_violated_bound.2.2.2.2.2.2.2.2.1

/-!
## C3 — totality and division-by-zero safety

`ℚ` has no `NaN`/`Infinity`, so the JavaScript divide-by-zero behaviour is
tracked explicitly: for each projection, the list of denominators whose
division result reaches the returned sequence.  A zero entry means the
JavaScript code produces a `NaN`/`Infinity` in its output.
-/

/-- Denominators used by `computeSecurityValues` that reach the output: with
`reinvestDividends = false` every loop iteration divides by
`1 + netGrowthRate` (security.ts line 37). -/
def securityDivisors (p : SecurityParams) (years : ℕ) : List ℚ :=
  if p.reinvestDividends = false ∧ 1 ≤ years then [1 + netGrowthRate p] else []

/-- Denominators used by `computeFixedIncomeValues` that reach the output:
the simple-interest reinvestment path divides each year index by
`maturityYears` (`Math.floor(year / maturityYears)` and
`year % maturityYears`, fixed-income.ts lines 85–86). -/
def fixedIncomeDivisors (p : FixedIncomeParams) (years : ℕ) : List ℚ :=
  if p.compoundingMethod = CompoundingMethod.simple ∧
      p.reinvestAtMaturity = true ∧ 1 ≤ years then
    [(p.maturityYears : ℚ)] else []

/-- `computePreciousMetalValues` performs no division. -/
def preciousMetalDivisors (_ : PreciousMetalParams) (_ : ℕ) : List ℚ := []

/-- Denominators used by `computeRentalValues` that reach the output: the
annual payment (rental.ts lines 37–49) divides by `mortgageDuration * 12`
(zero-rate branch) or by `factor - 1`, and the result enters the output
exactly when some year `1 ≤ y ≤ years` satisfies the payment guard
`y ≤ mortgageDuration ∧ mortgageAmount > 0`. -/
def rentalDivisors (p : RentalPropertyParams) (years : ℕ) : List ℚ :=
  if 0 < mortgageAmount p ∧ 1 ≤ years ∧ 1 ≤ p.mortgageDuration then
    if p.mortgageRate = 0 then [p.mortgageDuration * 12]
    else [(1 + p.mortgageRate / 12) ^ totalMonths p - 1]
  else []

/-- C3 (amended): the four projections and validators are total functions
(every embedded definition here is total), and the output-reaching divisions
are by nonzero denominators **exactly** on the following domains: always for
precious metal (no division); for securities iff dividends are reinvested,
the horizon is 0, or `annualReturn - expenseRatio ≠ -1`; for fixed income
iff the path is not simple-with-reinvestment, the horizon is 0, or
`maturityYears ≠ 0`; for rental (integer durations) iff there is no mortgage,
the horizon is 0, the duration is below 1, or `mortgageRate ≠ -24`.  Outside
these domains JavaScript propagates `NaN`/`Infinity` into the returned
sequence, so the claim's blanket finiteness statement fails (see the
counterexample). -/
theorem C3_division_safety_characterization :
    (∀ (p : SecurityParams) (years : ℕ),
      (∀ d ∈ securityDivisors p years, d ≠ 0) ↔
        (p.reinvestDividends = true ∨ years = 0 ∨
          p.annualReturn - p.expenseRatio ≠ -1)) ∧
    (∀ (p : FixedIncomeParams) (years : ℕ),
      (∀ d ∈ fixedIncomeDivisors p years, d ≠ 0) ↔
        (¬ (p.compoundingMethod = CompoundingMethod.simple ∧
            p.reinvestAtMaturity = true) ∨ years = 0 ∨ p.maturityYears ≠ 0)) ∧
    (∀ (p : PreciousMetalParams) (years : ℕ),
      ∀ d ∈ preciousMetalDivisors p years, d ≠ 0) ∧
    (∀ (p : RentalPropertyParams) (years : ℕ),
      jsIsInteger p.mortgageDuration →
      ((∀ d ∈ rentalDivisors p years, d ≠ 0) ↔
        (mortgageAmount p ≤ 0 ∨ years = 0 ∨ p.mortgageDuration < 1 ∨
          p.mortgageRate ≠ -24))) := by
  refine ⟨?_, ?_, ?_, ?_⟩
  · intro p years
    rw [securityDivisors]
    split_ifs with h
    · obtain ⟨hr, hy⟩ := h
      simp only [List.mem_singleton, forall_eq, netGrowthRate, hr,
        Bool.false_eq_true, if_false]
      constructor
      · intro hne
        refine Or.inr (Or.inr fun heq => hne ?_)
        rw [sub_eq_iff_eq_add] at heq
        rw [heq]; ring
      · rintro (h1 | h1 | h1)
        · exact h1.elim
        · exact absurd h1 (by omega)
        · intro hz; exact h1 (by linarith)
    · constructor
      · intro _
        by_cases hb : p.reinvestDividends = true
        · exact Or.inl hb
        · have hb' : p.reinvestDividends = false := by
            revert hb; cases p.reinvestDividends <;> simp
          have hy : ¬ 1 ≤ years := fun hy => h ⟨hb', hy⟩
          exact Or.inr (Or.inl (by omega))
      · intro _ d hd; exact absurd hd (List.not_mem_nil d)
  · intro p years
    rw [fixedIncomeDivisors]
    split_ifs with h
    · obtain ⟨hs, hr, hy⟩ := h
      simp only [List.mem_singleton, forall_eq, Nat.cast_ne_zero]
      constructor
      · intro hne; exact Or.inr (Or.inr hne)
      · rintro (h1 | h1 | h1)
        · exact absurd ⟨hs, hr⟩ h1
        · exact absurd h1 (by omega)
        · exact h1
    · constructor
      · intro _
        by_cases hs : p.compoundingMethod = CompoundingMethod.simple ∧
            p.reinvestAtMaturity = true
        · refine Or.inr (Or.inl ?_)
          by_contra hy
          exact h ⟨hs.1, hs.2, by omega⟩
        · exact Or.inl hs
      · intro _ d hd; exact absurd hd (List.not_mem_nil d)
  · intro p years d hd; exact absurd hd (List.not_mem_nil d)
  · intro p years hint
    rw [rentalDivisors]
    split_ifs with hcond hrate
    · have hd : (0 : ℚ) < p.mortgageDuration := lt_of_lt_of_le one_pos hcond.2.2
      have hne : p.mortgageDuration * 12 ≠ 0 := by positivity
      simp only [List.mem_singleton, forall_eq]
      constructor
      · intro _
        refine Or.inr (Or.inr (Or.inr ?_))
        rw [hrate]; norm_num
      · intro _; exact hne
    · obtain ⟨n, hn⟩ := (jsIsInteger_iff _).mp hint
      have hd1 : (1 : ℚ) ≤ (n : ℚ) := hn ▸ hcond.2.2
      have hn1 : 1 ≤ n := by exact_mod_cast hd1
      have hm : totalMonths p = (12 * n).toNat := by
        rw [totalMonths, ← hn,
          show ((n : ℚ) * 12) = ((12 * n : ℤ) : ℚ) by push_cast; ring,
          Int.floor_intCast]
      have hmpos : totalMonths p ≠ 0 := by rw [hm]; omega
      have hmeven : Even (totalMonths p) := by
        rw [hm, Nat.even_iff]; omega
      simp only [List.mem_singleton, forall_eq]
      constructor
      · intro hne
        refine Or.inr (Or.inr (Or.inr fun h24 => hne ?_))
        rw [h24, show (1 + (-24 : ℚ) / 12) = -1 by norm_num,
          hmeven.neg_one_pow]
        ring
      · intro hsafe
        have hr24 : p.mortgageRate ≠ -24 := by
          rcases hsafe with h1 | h1 | h1 | h1
          · exact absurd hcond.1 (not_lt.2 h1)
          · exact absurd hcond.2.1 (by omega)
          · exact absurd hcond.2.2 (not_le.2 h1)
          · exact h1
        intro hzero
        have hx : (1 + p.mortgageRate / 12) ^ totalMonths p = 1 :=
          sub_eq_zero.mp hzero
        rcases (pow_eq_one_iff_of_ne_zero hmpos).mp hx with h1 | ⟨h1, _⟩
        · apply hrate
          have h2 : p.mortgageRate / 12 = 0 := by linarith
          rcases div_eq_zero_iff.mp h2 with h3 | h3
          · exact h3
          · norm_num at h3
        · apply hr24
          have h2 : p.mortgageRate / 12 = -2 := by linarith
          field_simp at h2
          linarith
    · constructor
      · intro _
        by_contra hcon
        push_neg at hcon
        exact hcond ⟨hcon.1, by omega, hcon.2.2.1⟩
      · intro _ d hd; exact absurd hd (List.not_mem_nil d)

/-- Security record with `annualReturn = 0`, `expenseRatio = 1` (both inside
the validator's accepted ranges) and `reinvestDividends = false`: the
net growth rate is `-1`. -/
def secUnsafeParams : SecurityParams := ⟨"", 10000, 0, 10, 1, 0, 0, false⟩

/-- Fixed-income record on the simple-interest reinvestment path with
`maturityYears = 0`. -/
def fiUnsafeParams : FixedIncomeParams :=
  ⟨"", 10000, 1/20, 0, CompoundingMethod.simple, true, 10⟩

/-- C3 counterexample: the claim asserts every division-by-zero path is
special-cased for **every** numeric input.  But the security projection with
`reinvestDividends = false` divides by `1 + netGrowthRate = 0` at a
validator-accepted input (`annualReturn = 0`, `expenseRatio = 1`) — in
JavaScript `values[1]` is `0/0 * 0 = NaN` — and the fixed-income projection
with `reinvestAtMaturity = true`, simple compounding and `maturityYears = 0`
divides year 1 by zero (`Math.floor(1/0)`, `1 % 0`). -/
theorem C3_counterexample :
    validateSecurityParams secUnsafeParams = [] ∧
    secUnsafeParams.reinvestDividends = false ∧
    (0 : ℚ) ∈ securityDivisors secUnsafeParams 1 ∧
    fiUnsafeParams.reinvestAtMaturity = true ∧
    (0 : ℚ) ∈ fixedIncomeDivisors fiUnsafeParams 1 := by
  refine ⟨?_, rfl, ?_, rfl, ?_⟩
  · norm_num [validateSecurityParams, secUnsafeParams, jsIsInteger,
      Rat.den_ofNat]
  · norm_num [securityDivisors, secUnsafeParams, netGrowthRate]
  · norm_num [fixedIncomeDivisors, fiUnsafeParams]

/-- Witness for C3 (amended) at the default rental record (integer duration
30): its divisor list is nonzero-only, and the characterization's right-hand
side holds. -/
theorem C3_witness :
    jsIsInteger DEFAULT_RENTAL_PARAMS.mortgageDuration ∧
    ((∀ d ∈ rentalDivisors DEFAULT_RENTAL_PARAMS 30, d ≠ 0) ↔
      (mortgageAmount DEFAULT_RENTAL_PARAMS ≤ 0 ∨ (30 : ℕ) = 0 ∨
        DEFAULT_RENTAL_PARAMS.mortgageDuration < 1 ∨
        DEFAULT_RENTAL_PARAMS.mortgageRate ≠ -24)) := by
  have hint : jsIsInteger DEFAULT_RENTAL_PARAMS.mortgageDuration := by
    norm_num [DEFAULT_RENTAL_PARAMS, jsIsInteger, Rat.den_ofNat]
  exact ⟨hint,
    C3_division_safety_characterization.2.2.2 DEFAULT_RENTAL_PARAMS 30 hint⟩

end ROI
